import Mathlib

set_option maxRecDepth 100000

/-!
Verification of the cinema seat-booking backend (`src/app.js`).

The file shallowly embeds the server's data model and request handlers:
the two MySQL tables (`bookings`, `seats`, declared in `createTables`) become
lists of records, the auto-increment id becomes an explicit `nextId` counter,
and each Express handler becomes a function from database state to
(response, database state).  Each `beginTransaction ... commit/rollback`
block in the source is modelled as one atomic state transition whose
rollback returns the entry state.  Fallible storage steps of the reserve
transaction are modelled with explicit fault flags (`ReserveFaults`);
the fault-free instantiation is the deterministic behaviour, in which the
only failing query is a booking INSERT that violates the declared
`UNIQUE KEY unique_seat_show (seat_number, show_time, movie_name)`.
The client-side contact-info validation of `updateBooking` (the part of the
same source file that runs in the browser) is embedded separately.
-/

namespace Cinema

/-- Row of the `seats` table (`createTables` in `src/app.js`): columns
`seat_number`, `movie_name`, `show_time`, `is_available`, `seat_type`,
`price` (DECIMAL 200.00 / 150.00, modelled as the natural 200 / 150). -/
structure Seat where
  seat_number : String
  movie_name : String
  show_time : String
  is_available : Bool
  seat_type : String
  price : Nat
deriving DecidableEq

/-- The `status` ENUM of the `bookings` table. -/
inductive BookingStatus
  | confirmed
  | cancelled
deriving DecidableEq

/-- Row of the `bookings` table: columns `id`, `user_name`, `email`, `phone`,
`movie_name`, `show_time`, `seat_number`, `booking_date` (timestamp as Nat),
`status`. -/
structure Booking where
  id : Nat
  user_name : String
  email : String
  phone : String
  movie_name : String
  show_time : String
  seat_number : String
  booking_date : Nat
  status : BookingStatus
deriving DecidableEq

/-- The database state: both tables plus the AUTO_INCREMENT counter of
`bookings.id` (MySQL starts it at 1). -/
structure DBState where
  seats : List Seat
  bookings : List Booking
  nextId : Nat
deriving DecidableEq

/-- Body of a POST /api/bookings request. -/
structure BookingRequest where
  userName : String
  email : String
  phone : String
  movieName : String
  showTime : String
  seatNumber : String
deriving DecidableEq

/-- WHERE clause `seat_number = ? AND movie_name = ? AND show_time = ?`
used by the reserve handler's seat SELECT and UPDATE. -/
def seatMatches (s : Seat) (m t n : String) : Bool :=
  decide (s.seat_number = n ∧ s.movie_name = m ∧ s.show_time = t)

/-- A booking row occupies the key of
`UNIQUE KEY unique_seat_show (seat_number, show_time, movie_name)`. -/
def bookingMatches (b : Booking) (m t n : String) : Bool :=
  decide (b.seat_number = n ∧ b.show_time = t ∧ b.movie_name = m)

/-- MySQL duplicate-key test for inserting into `bookings`: some row already
holds the (seat_number, show_time, movie_name) key. -/
def bookingRowExists (db : DBState) (m t n : String) : Bool :=
  db.bookings.any (fun b => bookingMatches b m t n)

/-- Number of booking rows holding a given (movie, showTime, seatNumber) key. -/
def rowCount (db : DBState) (m t n : String) : Nat :=
  db.bookings.countP (fun b => bookingMatches b m t n)

/-- Number of bookings with status `confirmed` for a given triple. -/
def confirmedCount (db : DBState) (m t n : String) : Nat :=
  db.bookings.countP
    (fun b => bookingMatches b m t n && decide (b.status = BookingStatus.confirmed))

/-- `UPDATE seats SET is_available = v WHERE seat_number = ? AND
movie_name = ? AND show_time = ?`. -/
def setSeatAvailability (seats : List Seat) (m t n : String) (v : Bool) :
    List Seat :=
  seats.map (fun s => if seatMatches s m t n then { s with is_available := v } else s)

/-- Outcomes of the POST /api/bookings handler, one per response site. -/
inductive ReserveResult
  | transactionFailed
  | seatNotFound
  | seatUnavailable
  | insertFailed
  | updateFailed
  | commitFailed
  | success (bookingId : Nat)
deriving DecidableEq

/-- HTTP status attached to each reserve response in the source. -/
def httpStatus : ReserveResult → Nat
  | .transactionFailed => 500
  | .seatNotFound => 400
  | .seatUnavailable => 400
  | .insertFailed => 500
  | .updateFailed => 500
  | .commitFailed => 500
  | .success _ => 200

def isSuccess : ReserveResult → Bool
  | .success _ => true
  | _ => false

def isSeatUnavailable : ReserveResult → Bool
  | .seatUnavailable => true
  | _ => false

/-- Injected storage faults for the five fallible steps of the reserve
transaction (`beginTransaction`, the availability SELECT, the booking
INSERT, the seat UPDATE, `commit`).  Each flag forces the `err` branch of
the corresponding `db.query`/transaction callback. -/
structure ReserveFaults where
  fBegin : Bool
  fCheck : Bool
  fInsert : Bool
  fUpdate : Bool
  fCommit : Bool
deriving DecidableEq

def noFaults : ReserveFaults := ⟨false, false, false, false, false⟩

/-- The booking row inserted by
`INSERT INTO bookings (user_name, email, phone, movie_name, show_time, seat_number)`:
id from AUTO_INCREMENT, `booking_date` defaulted to the current time,
`status` defaulted to confirmed. -/
def mkBooking (id now : Nat) (req : BookingRequest) : Booking :=
  { id := id
    user_name := req.userName
    email := req.email
    phone := req.phone
    movie_name := req.movieName
    show_time := req.showTime
    seat_number := req.seatNumber
    booking_date := now
    status := BookingStatus.confirmed }

/-- The POST /api/bookings handler (src/app.js lines 1015-1081) with
injected storage faults.  Every rollback path returns the entry state
(the transaction is the atomic unit).  The availability read's error
branch is shared with the empty-result branch
(`if (err || results.length === 0)`), exactly as in the source. -/
def reserveF (f : ReserveFaults) (now : Nat) (db : DBState)
    (req : BookingRequest) : ReserveResult × DBState :=
  if f.fBegin then (.transactionFailed, db)
  else if f.fCheck then (.seatNotFound, db)
  else
    match db.seats.find?
        (fun s => seatMatches s req.movieName req.showTime req.seatNumber) with
    | none => (.seatNotFound, db)
    | some s =>
      if !s.is_available then (.seatUnavailable, db)
      else if f.fInsert || bookingRowExists db req.movieName req.showTime req.seatNumber then
        (.insertFailed, db)
      else
        let b := mkBooking db.nextId now req
        let db1 : DBState :=
          { seats := db.seats, bookings := db.bookings ++ [b], nextId := db.nextId + 1 }
        if f.fUpdate then (.updateFailed, db)
        else
          let db2 : DBState :=
            { db1 with
              seats := setSeatAvailability db1.seats req.movieName req.showTime
                req.seatNumber false }
          if f.fCommit then (.commitFailed, db)
          else (.success b.id, db2)

/-- The POST /api/bookings handler without storage faults: the only failing
query is a duplicate-key booking INSERT. -/
def reserve (now : Nat) (db : DBState) (req : BookingRequest) :
    ReserveResult × DBState :=
  reserveF noFaults now db req

/-- Outcomes of PUT /api/bookings/:id/cancel. -/
inductive CancelResult
  | notCancellable
  | ok
deriving DecidableEq

/-- The PUT /api/bookings/:id/cancel handler (src/app.js lines 1153-1207):
fetch the booking by id requiring status confirmed; absent → 404; else set
its status to cancelled and make the referenced seat available again. -/
def cancel (db : DBState) (bookingId : Nat) : CancelResult × DBState :=
  match db.bookings.find?
      (fun b => decide (b.id = bookingId ∧ b.status = BookingStatus.confirmed)) with
  | none => (.notCancellable, db)
  | some b =>
    (.ok, { db with
      bookings := db.bookings.map
        (fun x => if x.id = bookingId then { x with status := BookingStatus.cancelled } else x)
      seats := setSeatAvailability db.seats b.movie_name b.show_time b.seat_number true })

/-- Outcomes of DELETE /api/bookings/:id. -/
inductive DeleteResult
  | notFound
  | ok
deriving DecidableEq

/-- The DELETE /api/bookings/:id handler (src/app.js lines 1210-1276):
fetch the booking by id (any status); absent → 404; delete the row; make
the seat available again only if the fetched status was confirmed. -/
def deleteBooking (db : DBState) (bookingId : Nat) : DeleteResult × DBState :=
  match db.bookings.find? (fun b => decide (b.id = bookingId)) with
  | none => (.notFound, db)
  | some b =>
    if b.status = BookingStatus.confirmed then
      (.ok, { db with
        bookings := db.bookings.filter (fun x => decide (¬ x.id = bookingId))
        seats := setSeatAvailability db.seats b.movie_name b.show_time b.seat_number true })
    else
      (.ok, { db with bookings := db.bookings.filter (fun x => decide (¬ x.id = bookingId)) })

/-- Outcomes of PUT /api/bookings/:id. -/
inductive UpdateResult
  | notFound
  | ok
deriving DecidableEq

/-- The PUT /api/bookings/:id handler (src/app.js lines 1131-1150): run
`UPDATE bookings SET user_name = ?, email = ?, phone = ? WHERE id = ?`
unconditionally (the server applies no validation to the fields), then 404
when no row matched. -/
def updateBookingHandler (db : DBState) (bookingId : Nat)
    (name email phone : String) : UpdateResult × DBState :=
  if db.bookings.countP (fun b => decide (b.id = bookingId)) = 0 then (.notFound, db)
  else
    (.ok, { db with
      bookings := db.bookings.map
        (fun b => if b.id = bookingId then
          { b with user_name := name, email := email, phone := phone } else b) })

/-- The state-mutating requests of the API. -/
inductive Op
  | reserveOp (now : Nat) (req : BookingRequest)
  | cancelOp (bookingId : Nat)
  | deleteOp (bookingId : Nat)
  | updateOp (bookingId : Nat) (name email phone : String)

/-- State reached after one request (the response is discarded). -/
def applyOp (db : DBState) : Op → DBState
  | .reserveOp now req => (reserve now db req).2
  | .cancelOp i => (cancel db i).2
  | .deleteOp i => (deleteBooking db i).2
  | .updateOp i n e p => (updateBookingHandler db i n e p).2

/-- State reached after a sequence of requests. -/
def run (db : DBState) : List Op → DBState
  | [] => db
  | op :: ops => run (applyOp db op) ops

/-- Fixed demo catalog of `initializeSeats`. -/
def movies : List String := ["Avengers: Endgame", "Spider-Man", "Batman"]

def showTimes : List String := ["10:00 AM", "2:00 PM", "6:00 PM", "10:00 PM"]

def seatRows : List String := ["A", "B", "C", "D", "E"]

/-- One seeded seat of `initializeSeats`: seat number `row ++ i`
(i between 1 and 10), rows A and B premium at 200.00, others regular at
150.00, inserted with `is_available = TRUE`. -/
def mkSeat (movie time row : String) (i : Nat) : Seat :=
  let seatType := if row = "A" ∨ row = "B" then "premium" else "regular"
  { seat_number := row ++ toString i
    movie_name := movie
    show_time := time
    is_available := true
    seat_type := seatType
    price := if seatType = "premium" then 200 else 150 }

/-- The 600 seats inserted by `initializeSeats` when the table is empty:
movies × showTimes × rows A-E × numbers 1-10, in insertion order. -/
def seedSeats : List Seat :=
  movies.flatMap (fun movie =>
    showTimes.flatMap (fun time =>
      seatRows.flatMap (fun row =>
        (List.range 10).map (fun i => mkSeat movie time row (i + 1)))))

/-- `initializeSeats` (src/app.js lines 924-960): insert the demo catalog
only when `SELECT COUNT(*) FROM seats` is 0, otherwise leave the table as
it is. -/
def initializeSeats (seats : List Seat) : List Seat :=
  if seats.length = 0 then seedSeats else seats

/-- Identifying triple of a seat row. -/
def tripleOf (s : Seat) : String × String × String :=
  (s.movie_name, s.show_time, s.seat_number)

/-- The catalog of triples, one per seeded combination. -/
def catalogTriples : List (String × String × String) :=
  movies.flatMap (fun movie =>
    showTimes.flatMap (fun time =>
      seatRows.flatMap (fun row =>
        (List.range 10).map (fun i => (movie, time, row ++ toString (i + 1))))))

/-- Startup state of the deployed system: freshly created (empty) tables,
then `initializeSeats` seeds the catalog; no bookings; AUTO_INCREMENT at 1. -/
def db0 : DBState :=
  { seats := initializeSeats [], bookings := [], nextId := 1 }

/-- `SELECT ... FROM bookings b JOIN seats s ON b.seat_number = s.seat_number
AND b.movie_name = s.movie_name AND b.show_time = s.show_time` (the row set
of the booking-listing and booking-by-id reads; the `seats` unique key keeps
at most one partner per booking). -/
def joinRows (db : DBState) : List (Booking × Seat) :=
  db.bookings.filterMap (fun b =>
    (db.seats.find?
        (fun s => seatMatches s b.movie_name b.show_time b.seat_number)).map
      (fun s => (b, s)))

/-- Every booking row's triple references an existing seat row. -/
def coverOK (db : DBState) : Bool :=
  db.bookings.all (fun b =>
    db.seats.any (fun s => seatMatches s b.movie_name b.show_time b.seat_number))

/-- Availability of the (first) seat row with the given triple. -/
def seatIsAvailable (db : DBState) (m t n : String) : Bool :=
  match db.seats.find? (fun s => seatMatches s m t n) with
  | none => false
  | some s => s.is_available

/-- Run a batch of reserve calls in order, collecting every response. -/
def runCalls (db : DBState) : List (Nat × BookingRequest) →
    List ReserveResult × DBState
  | [] => ([], db)
  | (now, req) :: rest =>
    let r := reserve now db req
    let rs := runCalls r.2 rest
    (r.1 :: rs.1, rs.2)

/-- JS character class `[^\s@]` of the email pattern
(whitespace per `Char.isWhitespace`). -/
def emailCharOk (c : Char) : Bool :=
  !c.isWhitespace && !(c = '@')

/-- The client's email check, regex `[^\s@]+@[^\s@]+[.][^\s@]+` anchored at
both ends: exactly one at-sign, a nonempty local part, and a domain with
some inner dot (neither first nor last character). -/
def validEmail (s : String) : Bool :=
  match s.splitOn "@" with
  | [lp, dp] =>
    decide (1 ≤ lp.length) && lp.data.all emailCharOk && dp.data.all emailCharOk &&
      (List.range dp.data.length).any
        (fun i => decide (dp.data.get? i = some '.') && decide (1 ≤ i) &&
          decide (i + 1 < dp.data.length))
  | _ => false

/-- The client's phone check: strip whitespace, hyphens and parentheses,
then require 10 to 15 digits. -/
def validPhone (p : String) : Bool :=
  let clean := p.data.filter (fun c => !(c.isWhitespace || c = '-' || c = '(' || c = ')'))
  clean.all Char.isDigit && decide (10 ≤ clean.length) && decide (clean.length ≤ 15)

/-- The JS `String.prototype.trim()`: drop leading and trailing
whitespace (structural definition, evaluable by the kernel). -/
def jsTrim (s : String) : String :=
  String.mk (((s.data.dropWhile Char.isWhitespace).reverse.dropWhile
    Char.isWhitespace).reverse)

/-- What the browser does with an edit-booking submission. -/
inductive ClientUpdateAction
  | validationFailed (msg : String)
  | sendRequest (name email phone : String)
deriving DecidableEq

/-- The validation section of the client-side `updateBooking` function
(src/app.js lines 687-712): trim the three fields, reject when any is
empty, then check the email and phone patterns; only a fully valid form
issues the PUT request. -/
def clientValidateUpdate (rawName rawEmail rawPhone : String) :
    ClientUpdateAction :=
  if jsTrim rawName = "" ∨ jsTrim rawEmail = "" ∨ jsTrim rawPhone = "" then
    .validationFailed "Please fill in all fields"
  else if !validEmail (jsTrim rawEmail) then
    .validationFailed "Please enter a valid email address"
  else if !validPhone (jsTrim rawPhone) then
    .validationFailed "Please enter a valid phone number"
  else
    .sendRequest (jsTrim rawName) (jsTrim rawEmail) (jsTrim rawPhone)

/-- Row letter of a seat number (its first character). -/
def seatRowOf (s : Seat) : String :=
  String.mk (s.seat_number.data.take 1)

/-- Attribute spec of one seeded seat: available, and premium at 200 for
rows A and B, regular at 150 otherwise. -/
def seedSeatSpec (s : Seat) : Bool :=
  decide (s.is_available = true) &&
    (if seatRowOf s = "A" ∨ seatRowOf s = "B" then
      decide (s.seat_type = "premium" ∧ s.price = 200)
    else
      decide (s.seat_type = "regular" ∧ s.price = 150))

/-- A well-formed booking request for seat A1 of the first seeded showing. -/
def req1 : BookingRequest :=
  ⟨"John Doe", "john@example.com", "1234567890", "Avengers: Endgame", "10:00 AM", "A1"⟩

/-- Reachable state: seed, reserve seat A1 (booking id 1), then cancel
booking 1.  The seat is available again but the cancelled row still holds
the `unique_seat_show` key. -/
def dbPostCancel : DBState :=
  run db0 [Op.reserveOp 0 req1, Op.cancelOp 1]

/-- A one-seat ledger used to instantiate general theorems. -/
def seatW : Seat :=
  ⟨"A1", "Demo", "10:00 AM", true, "premium", 200⟩

def reqW : BookingRequest :=
  ⟨"Jane Roe", "jane@example.com", "1234567890", "Demo", "10:00 AM", "A1"⟩

def dbW : DBState :=
  ⟨[seatW], [], 1⟩

/-- A ledger with one occupied seat and its confirmed booking (id 1). -/
def bookingU : Booking :=
  ⟨1, "Alice", "alice@example.com", "1234567890", "Batman", "2:00 PM", "C3", 0,
    BookingStatus.confirmed⟩

def dbU : DBState :=
  ⟨[⟨"C3", "Batman", "2:00 PM", false, "regular", 150⟩], [bookingU], 2⟩

/-! ## General list and string lemmas -/

theorem append_left_cancel_str {r a b : String} (h : r ++ a = r ++ b) : a = b := by
  have hd : r.data ++ a.data = r.data ++ b.data := by
    have h1 := congrArg String.data h
    simpa [String.data_append] using h1
  exact String.ext (List.append_cancel_left hd)

theorem toString_succ_inj :
    ∀ i ∈ List.range 10, ∀ j ∈ List.range 10,
      toString (i + 1) = toString (j + 1) → i = j := by
  decide

theorem takeOne_row :
    ∀ row ∈ seatRows, ∀ i ∈ List.range 10,
      String.mk ((row ++ toString (i + 1)).data.take 1) = row := by
  decide

/-- A flatMap is duplicate-free when the outer list is, each block is, and
every element of a block determines its block through `key`. -/
theorem nodup_flatMap_keyed {α β : Type} {l : List α} {f : α → List β}
    (key : β → α) (hl : l.Nodup) (hf : ∀ a ∈ l, (f a).Nodup)
    (hk : ∀ a ∈ l, ∀ b ∈ f a, key b = a) : (l.flatMap f).Nodup := by
  refine List.nodup_flatMap.2 ⟨hf, List.Pairwise.imp ?_ (List.Pairwise.and_mem.1 hl)⟩
  intro a b hab x hxa hxb
  exact hab.2.2 ((hk a hab.1 x hxa).symm.trans (hk b hab.2.1 x hxb))

theorem catalogTriples_nodup : catalogTriples.Nodup := by
  unfold catalogTriples
  refine nodup_flatMap_keyed (fun b => b.1) (by decide) ?_ ?_
  · intro m _
    refine nodup_flatMap_keyed (fun b => b.2.1) (by decide) ?_ ?_
    · intro t _
      refine nodup_flatMap_keyed (fun b => String.mk (b.2.2.data.take 1))
        (by decide) ?_ ?_
      · intro row hrow
        refine List.Nodup.map_on ?_ (List.nodup_range 10)
        intro i hi j hj hEq
        have h3 : row ++ toString (i + 1) = row ++ toString (j + 1) :=
          congrArg (fun p => p.2.2) hEq
        exact toString_succ_inj i hi j hj (append_left_cancel_str h3)
      · intro row hrow b hb
        simp only [List.mem_map, List.mem_range] at hb
        obtain ⟨i, hi, rfl⟩ := hb
        exact takeOne_row row hrow i (List.mem_range.2 hi)
    · intro t _ b hb
      simp only [List.mem_flatMap, List.mem_map, List.mem_range] at hb
      obtain ⟨row, _, i, _, rfl⟩ := hb
      rfl
  · intro m _ b hb
    simp only [List.mem_flatMap, List.mem_map, List.mem_range] at hb
    obtain ⟨t, _, row, _, i, _, rfl⟩ := hb
    rfl

/-! ## Claim C8 -/

set_option maxRecDepth 100000 in
/-- Claim C8: when the seat store is empty at startup, seeding creates
exactly one seat per combination of the fixed catalog (the seeded triples
are exactly `catalogTriples`, without duplicates), each available, rows A
and B premium at 200.00 and rows C-E regular at 150.00; when the store is
non-empty, seeding creates nothing. -/
theorem C8_seeding (s : Seat) (l : List Seat) :
    initializeSeats (s :: l) = s :: l
    ∧ initializeSeats [] = seedSeats
    ∧ seedSeats.map tripleOf = catalogTriples
    ∧ catalogTriples.Nodup
    ∧ seedSeats.all seedSeatSpec = true := by
  refine ⟨?_, rfl, ?_, catalogTriples_nodup, ?_⟩
  · simp [initializeSeats]
  · rfl
  · decide

/-! ## Unfolding the fault-free reserve transaction -/

theorem reserve_def (now : Nat) (db : DBState) (req : BookingRequest) :
    reserve now db req =
      match db.seats.find?
          (fun s => seatMatches s req.movieName req.showTime req.seatNumber) with
      | none => (ReserveResult.seatNotFound, db)
      | some s =>
        if !s.is_available then (ReserveResult.seatUnavailable, db)
        else if bookingRowExists db req.movieName req.showTime req.seatNumber then
          (ReserveResult.insertFailed, db)
        else
          (ReserveResult.success db.nextId,
            { seats := setSeatAvailability db.seats req.movieName req.showTime
                req.seatNumber false
              bookings := db.bookings ++ [mkBooking db.nextId now req]
              nextId := db.nextId + 1 }) := rfl

/-- Both booking-row predicates used by the model ignore the booking's
status, contact fields and date; they are stable under the UPDATE of the
cancel handler. -/
theorem bookingMatches_setStatus (x : Booking) (i : Nat) (m t n : String) :
    bookingMatches
        (if x.id = i then { x with status := BookingStatus.cancelled } else x) m t n
      = bookingMatches x m t n := by
  by_cases h : x.id = i <;> simp [h, bookingMatches]

/-- Stability under the UPDATE of the contact-info handler. -/
theorem bookingMatches_setContact (x : Booking) (i : Nat) (nm em ph m t n : String) :
    bookingMatches
        (if x.id = i then { x with user_name := nm, email := em, phone := ph } else x)
        m t n
      = bookingMatches x m t n := by
  by_cases h : x.id = i <;> simp [h, bookingMatches]

/-! ## The per-triple row-count invariant (the bookings unique key) -/

theorem countP_and_le_left {p q : Booking → Bool} (l : List Booking) :
    l.countP (fun a => p a && q a) ≤ l.countP p :=
  List.countP_mono_left (fun x _ hx => by
    have hx2 : p x = true ∧ q x = true := by simpa using hx
    exact hx2.1)

theorem rowCount_reserve_le (now : Nat) (db : DBState) (req : BookingRequest)
    (m t n : String) (h : rowCount db m t n ≤ 1) :
    rowCount (reserve now db req).2 m t n ≤ 1 := by
  rw [reserve_def]
  cases hfind : db.seats.find?
      (fun s => seatMatches s req.movieName req.showTime req.seatNumber) with
  | none => exact h
  | some s =>
    by_cases hav : s.is_available = true
    case neg =>
      simp only [Bool.not_eq_true] at hav
      simp only [hav, Bool.not_false, if_true]
      exact h
    case pos =>
      simp only [hav, Bool.not_true, Bool.false_eq_true, if_false]
      by_cases hdup : bookingRowExists db req.movieName req.showTime req.seatNumber = true
      · simp only [hdup, if_true]
        exact h
      · simp only [Bool.not_eq_true] at hdup
        simp only [hdup, Bool.false_eq_true, if_false]
        show (db.bookings ++ [mkBooking db.nextId now req]).countP
          (fun b => bookingMatches b m t n) ≤ 1
        rw [List.countP_append]
        by_cases hb : bookingMatches (mkBooking db.nextId now req) m t n = true
        · have hfields : req.seatNumber = n ∧ req.showTime = t ∧ req.movieName = m := by
            simpa [bookingMatches, mkBooking] using hb
          have hzero :
              db.bookings.countP (fun b => bookingMatches b m t n) = 0 := by
            rw [← hfields.1, ← hfields.2.1, ← hfields.2.2]
            refine List.countP_eq_zero.2 (fun a ha hpa => ?_)
            have : (db.bookings.any fun b =>
                bookingMatches b req.movieName req.showTime req.seatNumber) = true :=
              List.any_eq_true.2 ⟨a, ha, hpa⟩
            rw [show (db.bookings.any fun b =>
                bookingMatches b req.movieName req.showTime req.seatNumber)
              = bookingRowExists db req.movieName req.showTime req.seatNumber from rfl] at this
            rw [hdup] at this
            cases this
          rw [hzero]
          simp [hb]
        · have hone : List.countP (fun b => bookingMatches b m t n)
              [mkBooking db.nextId now req] = 0 := by
            simp [List.countP_cons, hb]
          rw [hone]
          simpa using h

theorem rowCount_cancel (db : DBState) (i : Nat) (m t n : String) :
    rowCount (cancel db i).2 m t n = rowCount db m t n := by
  unfold cancel
  cases hf : db.bookings.find?
      (fun b => decide (b.id = i ∧ b.status = BookingStatus.confirmed)) with
  | none => rfl
  | some b =>
    show (db.bookings.map fun x =>
        if x.id = i then { x with status := BookingStatus.cancelled } else x).countP
          (fun b => bookingMatches b m t n)
      = db.bookings.countP (fun b => bookingMatches b m t n)
    rw [List.countP_map]
    exact List.countP_congr (fun x _ => by
      simp only [Function.comp]
      rw [bookingMatches_setStatus x i m t n])

theorem rowCount_update (db : DBState) (i : Nat) (nm em ph : String) (m t n : String) :
    rowCount (updateBookingHandler db i nm em ph).2 m t n = rowCount db m t n := by
  unfold updateBookingHandler
  by_cases ha : db.bookings.countP (fun b => decide (b.id = i)) = 0
  · rw [if_pos ha]
  · rw [if_neg ha]
    show (db.bookings.map fun b =>
        if b.id = i then { b with user_name := nm, email := em, phone := ph } else b).countP
          (fun b => bookingMatches b m t n)
      = db.bookings.countP (fun b => bookingMatches b m t n)
    rw [List.countP_map]
    exact List.countP_congr (fun x _ => by
      simp only [Function.comp]
      rw [bookingMatches_setContact x i nm em ph m t n])

theorem rowCount_delete_le (db : DBState) (i : Nat) (m t n : String) :
    rowCount (deleteBooking db i).2 m t n ≤ rowCount db m t n := by
  unfold deleteBooking
  split
  · exact le_refl _
  · split
    · show (db.bookings.filter fun x => decide (¬ x.id = i)).countP
          (fun b => bookingMatches b m t n)
        ≤ db.bookings.countP (fun b => bookingMatches b m t n)
      rw [List.countP_filter]
      exact countP_and_le_left db.bookings
    · show (db.bookings.filter fun x => decide (¬ x.id = i)).countP
          (fun b => bookingMatches b m t n)
        ≤ db.bookings.countP (fun b => bookingMatches b m t n)
      rw [List.countP_filter]
      exact countP_and_le_left db.bookings

theorem rowCount_applyOp_le (db : DBState) (op : Op) (m t n : String)
    (h : rowCount db m t n ≤ 1) : rowCount (applyOp db op) m t n ≤ 1 := by
  cases op with
  | reserveOp now req => exact rowCount_reserve_le now db req m t n h
  | cancelOp i => simpa [applyOp, rowCount_cancel] using h
  | deleteOp i => exact le_trans (rowCount_delete_le db i m t n) h
  | updateOp i nm em ph => simpa [applyOp, rowCount_update] using h

theorem rowCount_run_le (ops : List Op) (db : DBState)
    (h : ∀ m t n, rowCount db m t n ≤ 1) :
    ∀ m t n, rowCount (run db ops) m t n ≤ 1 := by
  induction ops generalizing db with
  | nil => exact h
  | cons op ops ih =>
    exact ih (applyOp db op) (fun m t n => rowCount_applyOp_le db op m t n (h m t n))

theorem confirmedCount_le_rowCount (db : DBState) (m t n : String) :
    confirmedCount db m t n ≤ rowCount db m t n :=
  List.countP_mono_left (fun x _ hx => by
    have hx2 : bookingMatches x m t n = true
        ∧ decide (x.status = BookingStatus.confirmed) = true := by simpa using hx
    exact hx2.1)

/-! ## Claim C1 -/

/-- Claim C1: in every state reachable from the seeded catalog by any
sequence of Reserve, Cancel, Delete and UpdateContactInfo requests, at most
one confirmed booking exists for any (movieName, showTime, seatNumber)
triple. -/
theorem C1_at_most_one_confirmed (ops : List Op) (m t n : String) :
    confirmedCount (run db0 ops) m t n ≤ 1 :=
  le_trans (confirmedCount_le_rowCount _ m t n)
    (rowCount_run_le ops db0 (fun m t n => by simp [rowCount, db0]) m t n)

/-! ## Referential integrity: bookings always reference an existing seat -/

theorem seatMatches_setAvail (s : Seat) (v : Bool) (m t n : String) :
    seatMatches { s with is_available := v } m t n = seatMatches s m t n := rfl

theorem cover_setSeat {seats : List Seat} {m' t' n' : String} (m t n : String)
    (v : Bool) (h : ∃ s ∈ seats, seatMatches s m' t' n' = true) :
    ∃ s ∈ setSeatAvailability seats m t n v, seatMatches s m' t' n' = true := by
  obtain ⟨s, hs, hm⟩ := h
  refine ⟨if seatMatches s m t n then { s with is_available := v } else s,
    List.mem_map_of_mem _ hs, ?_⟩
  by_cases hc : seatMatches s m t n = true
  · rw [if_pos hc, seatMatches_setAvail]
    exact hm
  · rw [if_neg hc]
    exact hm

theorem booking_setStatus_triple (x : Booking) (i : Nat) :
    ((if x.id = i then { x with status := BookingStatus.cancelled } else x).movie_name
        = x.movie_name)
    ∧ ((if x.id = i then { x with status := BookingStatus.cancelled } else x).show_time
        = x.show_time)
    ∧ ((if x.id = i then { x with status := BookingStatus.cancelled } else x).seat_number
        = x.seat_number) := by
  by_cases h : x.id = i <;> simp [h]

theorem booking_setContact_triple (x : Booking) (i : Nat) (nm em ph : String) :
    ((if x.id = i then { x with user_name := nm, email := em, phone := ph } else x).movie_name
        = x.movie_name)
    ∧ ((if x.id = i then { x with user_name := nm, email := em, phone := ph } else x).show_time
        = x.show_time)
    ∧ ((if x.id = i then { x with user_name := nm, email := em, phone := ph } else x).seat_number
        = x.seat_number) := by
  by_cases h : x.id = i <;> simp [h]

theorem cover_applyOp (db : DBState) (op : Op)
    (h : ∀ b ∈ db.bookings,
      ∃ s ∈ db.seats, seatMatches s b.movie_name b.show_time b.seat_number = true) :
    ∀ b ∈ (applyOp db op).bookings,
      ∃ s ∈ (applyOp db op).seats,
        seatMatches s b.movie_name b.show_time b.seat_number = true := by
  cases op with
  | reserveOp now req =>
    show ∀ b ∈ (reserve now db req).2.bookings,
      ∃ s ∈ (reserve now db req).2.seats, _
    rw [reserve_def]
    cases hfind : db.seats.find?
        (fun s => seatMatches s req.movieName req.showTime req.seatNumber) with
    | none => exact h
    | some s =>
      by_cases hav : s.is_available = true
      case neg =>
        simp only [Bool.not_eq_true] at hav
        simp only [hav, Bool.not_false, if_true]
        exact h
      case pos =>
        simp only [hav, Bool.not_true, Bool.false_eq_true, if_false]
        by_cases hdup : bookingRowExists db req.movieName req.showTime req.seatNumber = true
        · simp only [hdup, if_true]
          exact h
        · simp only [Bool.not_eq_true] at hdup
          simp only [hdup, Bool.false_eq_true, if_false]
          intro b hb
          have hb' : b ∈ db.bookings ++ [mkBooking db.nextId now req] := hb
          rcases List.mem_append.1 hb' with hb1 | hb2
          · exact cover_setSeat _ _ _ _ (h b hb1)
          · have hbeq : b = mkBooking db.nextId now req := by simpa using hb2
            subst hbeq
            refine cover_setSeat _ _ _ _ ⟨s, List.mem_of_find?_eq_some hfind, ?_⟩
            have hps := List.find?_some hfind
            exact hps
  | cancelOp i =>
    show ∀ b ∈ (cancel db i).2.bookings,
      ∃ s ∈ (cancel db i).2.seats, _
    unfold cancel
    split
    · exact h
    · intro b hb
      rcases List.mem_map.1 hb with ⟨x, hx, rfl⟩
      have ht := booking_setStatus_triple x i
      rw [ht.1, ht.2.1, ht.2.2]
      exact cover_setSeat _ _ _ _ (h x hx)
  | deleteOp i =>
    show ∀ b ∈ (deleteBooking db i).2.bookings,
      ∃ s ∈ (deleteBooking db i).2.seats, _
    unfold deleteBooking
    split
    · exact h
    · split
      · intro b hb
        exact cover_setSeat _ _ _ _ (h b (List.mem_of_mem_filter hb))
      · intro b hb
        exact h b (List.mem_of_mem_filter hb)
  | updateOp i nm em ph =>
    show ∀ b ∈ (updateBookingHandler db i nm em ph).2.bookings,
      ∃ s ∈ (updateBookingHandler db i nm em ph).2.seats, _
    unfold updateBookingHandler
    split
    · exact h
    · intro b hb
      rcases List.mem_map.1 hb with ⟨x, hx, rfl⟩
      have ht := booking_setContact_triple x i nm em ph
      rw [ht.1, ht.2.1, ht.2.2]
      exact h x hx

theorem cover_run (ops : List Op) (db : DBState)
    (h : ∀ b ∈ db.bookings,
      ∃ s ∈ db.seats, seatMatches s b.movie_name b.show_time b.seat_number = true) :
    ∀ b ∈ (run db ops).bookings,
      ∃ s ∈ (run db ops).seats,
        seatMatches s b.movie_name b.show_time b.seat_number = true := by
  induction ops generalizing db with
  | nil => exact h
  | cons op ops ih => exact ih (applyOp db op) (cover_applyOp db op h)

theorem coverOK_iff (db : DBState) :
    coverOK db = true ↔ ∀ b ∈ db.bookings,
      ∃ s ∈ db.seats, seatMatches s b.movie_name b.show_time b.seat_number = true := by
  simp [coverOK, List.all_eq_true, List.any_eq_true]

theorem joinRows_complete (db : DBState)
    (h : ∀ b ∈ db.bookings,
      ∃ s ∈ db.seats, seatMatches s b.movie_name b.show_time b.seat_number = true) :
    (joinRows db).map Prod.fst = db.bookings := by
  unfold joinRows
  have haux : ∀ bs : List Booking,
      (∀ b ∈ bs, ∃ s ∈ db.seats, seatMatches s b.movie_name b.show_time b.seat_number = true) →
      (bs.filterMap (fun b =>
        (db.seats.find?
            (fun s => seatMatches s b.movie_name b.show_time b.seat_number)).map
          (fun s => (b, s)))).map Prod.fst = bs := by
    intro bs hbs
    induction bs with
    | nil => rfl
    | cons b rest ih =>
      have hsome : (db.seats.find?
          (fun s => seatMatches s b.movie_name b.show_time b.seat_number)).isSome = true :=
        List.find?_isSome.2 (hbs b (List.mem_cons_self b rest))
      rcases Option.isSome_iff_exists.1 hsome with ⟨k, hk⟩
      rw [List.filterMap_cons, hk]
      show ((b, k) :: (rest.filterMap _)).map Prod.fst = b :: rest
      rw [List.map_cons]
      exact congrArg (b :: ·) (ih (fun x hx => hbs x (List.mem_cons_of_mem b hx)))
  exact haux db.bookings h

/-! ## Claim C10 -/

/-- Claim C10: in every reachable state every booking row's triple
references an existing seat row, and consequently the bookings-to-seats
inner join behind the booking-listing and booking-by-id reads keeps every
booking row (it never silently drops one). -/
theorem C10_bookings_reference_seats (ops : List Op) :
    coverOK (run db0 ops) = true
    ∧ (joinRows (run db0 ops)).map Prod.fst = (run db0 ops).bookings := by
  have h := cover_run ops db0 (by intro b hb; simp [db0] at hb)
  exact ⟨(coverOK_iff _).2 h, joinRows_complete _ h⟩

/-! ## The reserve success and rejection shapes -/

theorem reserve_success_shape (now : Nat) (db : DBState) (req : BookingRequest)
    (s : Seat)
    (hfind : db.seats.find?
      (fun x => seatMatches x req.movieName req.showTime req.seatNumber) = some s)
    (hav : s.is_available = true)
    (hrow : bookingRowExists db req.movieName req.showTime req.seatNumber = false) :
    reserve now db req
      = (ReserveResult.success db.nextId,
        { seats := setSeatAvailability db.seats req.movieName req.showTime
            req.seatNumber false,
          bookings := db.bookings ++ [mkBooking db.nextId now req],
          nextId := db.nextId + 1 }) := by
  rw [reserve_def, hfind]
  simp [hav, hrow]

theorem reserve_unavailable (now : Nat) (db : DBState) (req : BookingRequest)
    (s : Seat)
    (hfind : db.seats.find?
      (fun x => seatMatches x req.movieName req.showTime req.seatNumber) = some s)
    (hav : s.is_available = false) :
    reserve now db req = (ReserveResult.seatUnavailable, db) := by
  rw [reserve_def, hfind]
  simp [hav]

theorem find?_setSeatAvailability (seats : List Seat) (m t n : String) (v : Bool)
    (s : Seat)
    (h : seats.find? (fun x => seatMatches x m t n) = some s) :
    (setSeatAvailability seats m t n v).find? (fun x => seatMatches x m t n)
      = some { s with is_available := v } := by
  induction seats with
  | nil => cases h
  | cons a rest ih =>
    by_cases ha : seatMatches a m t n = true
    · simp only [List.find?_cons, ha] at h
      obtain rfl : a = s := Option.some.inj h
      show ((if seatMatches a m t n then { a with is_available := v } else a)
          :: setSeatAvailability rest m t n v).find? (fun x => seatMatches x m t n) = _
      rw [if_pos ha]
      have ha2 : seatMatches { a with is_available := v } m t n = true := by
        rw [seatMatches_setAvail]; exact ha
      simp only [List.find?_cons, ha2]
    · simp only [Bool.not_eq_true] at ha
      simp only [List.find?_cons, ha] at h
      show ((if seatMatches a m t n then { a with is_available := v } else a)
          :: setSeatAvailability rest m t n v).find? (fun x => seatMatches x m t n) = _
      rw [if_neg (by simp [ha])]
      simp only [List.find?_cons, ha]
      exact ih h

/-! ## Batches of reserve calls on one triple -/

theorem runCalls_stuck (calls : List (Nat × BookingRequest)) (db : DBState)
    (m t n : String) (s : Seat)
    (htr : ∀ c ∈ calls, c.2.movieName = m ∧ c.2.showTime = t ∧ c.2.seatNumber = n)
    (hfind : db.seats.find? (fun x => seatMatches x m t n) = some s)
    (hav : s.is_available = false) :
    runCalls db calls = (calls.map (fun _ => ReserveResult.seatUnavailable), db) := by
  induction calls with
  | nil => rfl
  | cons c rest ih =>
    obtain ⟨now, req⟩ := c
    have hc := htr (now, req) (List.mem_cons_self _ _)
    have hres : reserve now db req = (ReserveResult.seatUnavailable, db) := by
      refine reserve_unavailable now db req s ?_ hav
      rw [hc.1, hc.2.1, hc.2.2]
      exact hfind
    show ((reserve now db req).1 :: (runCalls (reserve now db req).2 rest).1,
          (runCalls (reserve now db req).2 rest).2)
      = (((now, req) :: rest).map (fun _ => ReserveResult.seatUnavailable), db)
    rw [hres]
    have ihr := ih (fun c hc2 => htr c (List.mem_cons_of_mem _ hc2))
    show (ReserveResult.seatUnavailable :: (runCalls db rest).1, (runCalls db rest).2) = _
    rw [ihr]
    rfl

theorem countP_map_const {α β : Type} (l : List α) (c : β) (p : β → Bool) :
    (l.map (fun _ => c)).countP p = if p c then l.length else 0 := by
  induction l with
  | nil => simp
  | cons a l ih =>
    rw [List.map_cons, List.countP_cons, ih]
    by_cases hp : p c = true <;> simp [hp]

/-! ## Claim C2 -/

/-- Claim C2 (amended): firing N reserve calls, N at least 1, in any serial
order of the code's per-call transactions, for one (movieName, showTime,
seatNumber) triple whose seat exists with isAvailable true and for which no
booking row of any status holds the bookings-table unique key, yields
exactly 1 success and N-1 SeatUnavailable rejections, and leaves exactly
one confirmed booking for the triple (never two). -/
theorem C2_one_success_rest_unavailable (db : DBState)
    (calls : List (Nat × BookingRequest)) (m t n : String) (s : Seat)
    (hne : calls ≠ [])
    (htr : ∀ c ∈ calls, c.2.movieName = m ∧ c.2.showTime = t ∧ c.2.seatNumber = n)
    (hfind : db.seats.find? (fun x => seatMatches x m t n) = some s)
    (hav : s.is_available = true)
    (hrow : bookingRowExists db m t n = false) :
    (runCalls db calls).1.length = calls.length
    ∧ (runCalls db calls).1.countP isSuccess = 1
    ∧ (runCalls db calls).1.countP isSeatUnavailable = calls.length - 1
    ∧ confirmedCount (runCalls db calls).2 m t n = 1 := by
  cases calls with
  | nil => exact absurd rfl hne
  | cons c rest =>
    obtain ⟨now, req⟩ := c
    have hc := htr (now, req) (List.mem_cons_self _ _)
    have hfind' : db.seats.find?
        (fun x => seatMatches x req.movieName req.showTime req.seatNumber) = some s := by
      rw [hc.1, hc.2.1, hc.2.2]
      exact hfind
    have hrow' : bookingRowExists db req.movieName req.showTime req.seatNumber = false := by
      rw [hc.1, hc.2.1, hc.2.2]
      exact hrow
    have hres := reserve_success_shape now db req s hfind' hav hrow'
    have hres2 : reserve now db req
        = (ReserveResult.success db.nextId,
          { seats := setSeatAvailability db.seats m t n false,
            bookings := db.bookings ++ [mkBooking db.nextId now req],
            nextId := db.nextId + 1 }) := by
      rw [hres, hc.1, hc.2.1, hc.2.2]
    have hfind1 := find?_setSeatAvailability db.seats m t n false s hfind
    have hstuck := runCalls_stuck rest
      ({ seats := setSeatAvailability db.seats m t n false,
         bookings := db.bookings ++ [mkBooking db.nextId now req],
         nextId := db.nextId + 1 } : DBState) m t n { s with is_available := false }
      (fun c hc2 => htr c (List.mem_cons_of_mem _ hc2)) hfind1 rfl
    have hcomp : runCalls db ((now, req) :: rest)
        = (ReserveResult.success db.nextId
              :: rest.map (fun _ => ReserveResult.seatUnavailable),
           { seats := setSeatAvailability db.seats m t n false,
             bookings := db.bookings ++ [mkBooking db.nextId now req],
             nextId := db.nextId + 1 }) := by
      show ((reserve now db req).1 :: (runCalls (reserve now db req).2 rest).1,
            (runCalls (reserve now db req).2 rest).2) = _
      rw [hres2]
      simp only [hstuck]
    rw [hcomp]
    have hmatch : bookingMatches (mkBooking db.nextId now req) m t n = true := by
      have hcm : req.movieName = m := hc.1
      have hct : req.showTime = t := hc.2.1
      have hcn : req.seatNumber = n := hc.2.2
      simp [bookingMatches, mkBooking, hcm, hct, hcn]
    have hall : ∀ a ∈ db.bookings, ¬ bookingMatches a m t n = true := by
      intro a ha hpa
      have : bookingRowExists db m t n = true := List.any_eq_true.2 ⟨a, ha, hpa⟩
      rw [hrow] at this
      cases this
    refine ⟨?_, ?_, ?_, ?_⟩
    · simp
    · rw [List.countP_cons, countP_map_const]
      simp [isSuccess]
    · rw [List.countP_cons, countP_map_const]
      simp [isSeatUnavailable]
    · show (db.bookings ++ [mkBooking db.nextId now req]).countP
        (fun b => bookingMatches b m t n
          && decide (b.status = BookingStatus.confirmed)) = 1
      rw [List.countP_append]
      have hz : db.bookings.countP (fun b => bookingMatches b m t n
          && decide (b.status = BookingStatus.confirmed)) = 0 := by
        refine List.countP_eq_zero.2 (fun a ha hpa => ?_)
        have hpa2 : bookingMatches a m t n = true
            ∧ decide (a.status = BookingStatus.confirmed) = true := by simpa using hpa
        exact hall a ha hpa2.1
      rw [hz]
      have hmatch2 : bookingMatches
          { id := db.nextId, user_name := req.userName, email := req.email,
            phone := req.phone, movie_name := req.movieName, show_time := req.showTime,
            seat_number := req.seatNumber, booking_date := now,
            status := BookingStatus.confirmed } m t n = true := hmatch
      simp [List.countP_cons, mkBooking, hmatch2]

/-- Claim C2, counterexample to the claim as stated: in the reachable state
after Reserve then Cancel of seat A1, the seat exists with isAvailable
true, yet a batch of one reserve call on it yields zero successes (the
insert hits the unique key of the cancelled row and the call is rejected
with the 500 insert-failure response, not SeatUnavailable). -/
theorem C2_counterexample :
    seatIsAvailable dbPostCancel "Avengers: Endgame" "10:00 AM" "A1" = true
    ∧ (runCalls dbPostCancel [(2, req1)]).1 = [ReserveResult.insertFailed]
    ∧ (runCalls dbPostCancel [(2, req1)]).1.countP isSuccess = 0
    ∧ (runCalls dbPostCancel [(2, req1)]).1.countP isSeatUnavailable = 0 := by
  refine ⟨?_, ?_, ?_, ?_⟩ <;> decide

/-- Claim C2, witness for the amended theorem: one call on a fresh one-seat
ledger succeeds. -/
theorem C2_witness :
    (runCalls dbW [(0, reqW)]).1.length = 1
    ∧ (runCalls dbW [(0, reqW)]).1.countP isSuccess = 1
    ∧ (runCalls dbW [(0, reqW)]).1.countP isSeatUnavailable = 0
    ∧ confirmedCount (runCalls dbW [(0, reqW)]).2 "Demo" "10:00 AM" "A1" = 1 :=
  C2_one_success_rest_unavailable dbW [(0, reqW)] "Demo" "10:00 AM" "A1" seatW
    (by decide) (by decide) (by decide) (by decide) (by decide)

/-! ## Claim C3 -/

/-- Claim C3: evaluating the code at the spec's round trip.  On the seeded
catalog, Reserve(A1) succeeds with booking id 1 and Cancel(1) succeeds,
after which the seat is available again; yet the second Reserve of the same
triple is rejected with the 500 insert-failure response (its INSERT hits
the row of the cancelled booking, which still holds the
`unique_seat_show` key), instead of succeeding as the claim states. -/
theorem C3_cancel_then_rebook_fails :
    (reserve 0 db0 req1).1 = ReserveResult.success 1
    ∧ (cancel (reserve 0 db0 req1).2 1).1 = CancelResult.ok
    ∧ (cancel (reserve 0 db0 req1).2 1).2 = dbPostCancel
    ∧ seatIsAvailable dbPostCancel "Avengers: Endgame" "10:00 AM" "A1" = true
    ∧ (reserve 1 dbPostCancel req1).1 = ReserveResult.insertFailed
    ∧ httpStatus (reserve 1 dbPostCancel req1).1 = 500 := by
  refine ⟨?_, ?_, ?_, ?_, ?_, ?_⟩ <;> decide

/-! ## Claim C4 -/

/-- Claim C4: a reserve call on an existing available seat with no failing
storage step (equivalently, no booking row already holding the triple's
unique key, the only query that can fail in the fault-free embedding)
succeeds: the response carries the new row's auto-assigned id, the new
booking row is appended with status confirmed, and the referenced seat's
isAvailable becomes false. -/
theorem C4_reserve_success (now : Nat) (db : DBState) (req : BookingRequest)
    (s : Seat)
    (hfind : db.seats.find?
      (fun x => seatMatches x req.movieName req.showTime req.seatNumber) = some s)
    (hav : s.is_available = true)
    (hrow : bookingRowExists db req.movieName req.showTime req.seatNumber = false) :
    (reserve now db req).1 = ReserveResult.success db.nextId
    ∧ (reserve now db req).2.bookings = db.bookings ++ [mkBooking db.nextId now req]
    ∧ (mkBooking db.nextId now req).status = BookingStatus.confirmed
    ∧ (mkBooking db.nextId now req).id = db.nextId
    ∧ (reserve now db req).2.seats
        = setSeatAvailability db.seats req.movieName req.showTime req.seatNumber false
    ∧ seatIsAvailable (reserve now db req).2 req.movieName req.showTime
        req.seatNumber = false := by
  have h := reserve_success_shape now db req s hfind hav hrow
  have hf1 := find?_setSeatAvailability db.seats req.movieName req.showTime
    req.seatNumber false s hfind
  refine ⟨by rw [h], by rw [h], rfl, rfl, by rw [h], ?_⟩
  rw [h]
  have hf2 :
      ({ seats :=
            setSeatAvailability db.seats req.movieName req.showTime req.seatNumber false,
         bookings := db.bookings ++ [mkBooking db.nextId now req],
         nextId := db.nextId + 1 } : DBState).seats.find?
          (fun x => seatMatches x req.movieName req.showTime req.seatNumber)
        = some { s with is_available := false } := hf1
  unfold seatIsAvailable
  rw [hf2]

/-- Claim C4, witness: the general theorem applied to a one-seat ledger. -/
theorem C4_witness :
    (reserve 0 dbW reqW).1 = ReserveResult.success 1
    ∧ (reserve 0 dbW reqW).2.bookings = dbW.bookings ++ [mkBooking 1 0 reqW]
    ∧ (mkBooking 1 0 reqW).status = BookingStatus.confirmed
    ∧ (mkBooking 1 0 reqW).id = 1
    ∧ (reserve 0 dbW reqW).2.seats
        = setSeatAvailability dbW.seats "Demo" "10:00 AM" "A1" false
    ∧ seatIsAvailable (reserve 0 dbW reqW).2 "Demo" "10:00 AM" "A1" = false :=
  C4_reserve_success 0 dbW reqW seatW (by decide) (by decide) (by decide)

/-! ## Claim C5 -/

/-- Claim C5, counterexample to the claim as stated: with a fault injected
into the availability read (step 2) on a ledger whose seat exists and is
available, the handler answers with the 400 SeatNotFound response (the
`err || results.length === 0` branch), not with a 500 TransactionFailed
response as the claim requires.  The state is still rolled back. -/
theorem C5_counterexample :
    seatIsAvailable dbW "Demo" "10:00 AM" "A1" = true
    ∧ (reserveF ⟨false, true, false, false, false⟩ 0 dbW reqW).1
        = ReserveResult.seatNotFound
    ∧ httpStatus (reserveF ⟨false, true, false, false, false⟩ 0 dbW reqW).1 = 400
    ∧ (reserveF ⟨false, true, false, false, false⟩ 0 dbW reqW).2 = dbW := by
  refine ⟨?_, ?_, ?_, ?_⟩ <;> decide

theorem reserveF_def2 (fI fU fM : Bool) (now : Nat) (db : DBState)
    (req : BookingRequest) :
    reserveF ⟨false, false, fI, fU, fM⟩ now db req
      = match db.seats.find?
          (fun x => seatMatches x req.movieName req.showTime req.seatNumber) with
        | none => (ReserveResult.seatNotFound, db)
        | some s =>
          if !s.is_available then (ReserveResult.seatUnavailable, db)
          else if fI || bookingRowExists db req.movieName req.showTime req.seatNumber
          then (ReserveResult.insertFailed, db)
          else if fU then (ReserveResult.updateFailed, db)
          else if fM then (ReserveResult.commitFailed, db)
          else (ReserveResult.success db.nextId,
            { seats := setSeatAvailability db.seats req.movieName req.showTime
                req.seatNumber false,
              bookings := db.bookings ++ [mkBooking db.nextId now req],
              nextId := db.nextId + 1 }) := rfl

/-- Claim C5 (amended): on a reserve whose seat exists and is available and
whose insert would not collide with the unique key, a failing availability
read is signalled as SeatNotFound (HTTP 400), while a failing booking
insert, seat update or commit is signalled with an HTTP 500 response that
is neither SeatNotFound nor SeatUnavailable; in every such failure the
whole transaction is rolled back and no partial state is visible. -/
theorem C5_rollback_and_signals (f : ReserveFaults) (now : Nat) (db : DBState)
    (req : BookingRequest) (s : Seat)
    (hb : f.fBegin = false)
    (hfind : db.seats.find?
      (fun x => seatMatches x req.movieName req.showTime req.seatNumber) = some s)
    (hav : s.is_available = true)
    (hrow : bookingRowExists db req.movieName req.showTime req.seatNumber = false) :
    (f.fCheck = true →
      reserveF f now db req = (ReserveResult.seatNotFound, db)
      ∧ httpStatus (reserveF f now db req).1 = 400)
    ∧ (f.fCheck = false →
      (f.fInsert = true ∨ f.fUpdate = true ∨ f.fCommit = true) →
      (reserveF f now db req).2 = db
      ∧ httpStatus (reserveF f now db req).1 = 500
      ∧ (reserveF f now db req).1 ≠ ReserveResult.seatNotFound
      ∧ (reserveF f now db req).1 ≠ ReserveResult.seatUnavailable) := by
  obtain ⟨fB, fC, fI, fU, fM⟩ := f
  have hb2 : fB = false := hb
  subst hb2
  constructor
  · intro hC
    have hC2 : fC = true := hC
    subst hC2
    exact ⟨rfl, rfl⟩
  · intro hC hOr
    have hC2 : fC = false := hC
    subst hC2
    rw [reserveF_def2, hfind]
    simp only [hav, hrow, Bool.not_true, Bool.or_false, Bool.false_eq_true, if_false]
    cases fI with
    | true =>
      exact ⟨rfl, rfl, fun h => ReserveResult.noConfusion h,
        fun h => ReserveResult.noConfusion h⟩
    | false =>
      cases fU with
      | true =>
        exact ⟨rfl, rfl, fun h => ReserveResult.noConfusion h,
          fun h => ReserveResult.noConfusion h⟩
      | false =>
        cases fM with
        | true =>
          exact ⟨rfl, rfl, fun h => ReserveResult.noConfusion h,
            fun h => ReserveResult.noConfusion h⟩
        | false =>
          rcases hOr with h1 | h1 | h1 <;> exact Bool.noConfusion h1

/-- Claim C5, witness for the amended theorem: an injected insert fault on
a one-seat ledger rolls back and answers 500. -/
theorem C5_witness :
    (reserveF ⟨false, false, true, false, false⟩ 0 dbW reqW).2 = dbW
    ∧ httpStatus (reserveF ⟨false, false, true, false, false⟩ 0 dbW reqW).1 = 500
    ∧ (reserveF ⟨false, false, true, false, false⟩ 0 dbW reqW).1
        ≠ ReserveResult.seatNotFound
    ∧ (reserveF ⟨false, false, true, false, false⟩ 0 dbW reqW).1
        ≠ ReserveResult.seatUnavailable :=
  (C5_rollback_and_signals ⟨false, false, true, false, false⟩ 0 dbW reqW seatW rfl
    (by decide) (by decide) (by decide)).2 rfl (Or.inl rfl)

/-! ## Claim C6 -/

/-- Claim C6: Cancel(bookingId) is rejected with NotCancellable exactly
when no booking with that id and status confirmed exists (absent or
already cancelled), and in the rejection case both stores are left
unchanged. -/
theorem C6_cancel_not_cancellable (db : DBState) (bookingId : Nat) :
    ((cancel db bookingId).1 = CancelResult.notCancellable ↔
      ¬ ∃ b ∈ db.bookings, b.id = bookingId ∧ b.status = BookingStatus.confirmed)
    ∧ ((cancel db bookingId).1 = CancelResult.notCancellable →
      (cancel db bookingId).2 = db) := by
  unfold cancel
  cases hf : db.bookings.find?
      (fun b => decide (b.id = bookingId ∧ b.status = BookingStatus.confirmed)) with
  | none =>
    have hnone := List.find?_eq_none.1 hf
    refine ⟨⟨fun _ => ?_, fun _ => rfl⟩, fun _ => rfl⟩
    rintro ⟨b, hb, hid, hst⟩
    exact (hnone b hb) (by simp [hid, hst])
  | some b =>
    have hps := List.find?_some hf
    have hmem := List.mem_of_find?_eq_some hf
    refine ⟨⟨fun hres => ?_, fun hno => ?_⟩, fun hres => ?_⟩
    · exact CancelResult.noConfusion hres
    · exact absurd ⟨b, hmem, of_decide_eq_true hps⟩ hno
    · exact CancelResult.noConfusion hres

/-- Claim C6, witness: cancelling in an empty store is rejected and
changes nothing. -/
theorem C6_witness :
    (cancel ⟨[], [], 1⟩ 5).1 = CancelResult.notCancellable
    ∧ (cancel ⟨[], [], 1⟩ 5).2 = ⟨[], [], 1⟩ := by
  have h := C6_cancel_not_cancellable ⟨[], [], 1⟩ 5
  have h1 : (cancel ⟨[], [], 1⟩ 5).1 = CancelResult.notCancellable :=
    h.1.mpr (by rintro ⟨b, hb, -⟩; cases hb)
  exact ⟨h1, h.2 h1⟩

/-! ## Claim C7 -/

theorem deleteBooking_some (db : DBState) (bookingId : Nat) (b : Booking)
    (hfind : db.bookings.find? (fun x => decide (x.id = bookingId)) = some b) :
    deleteBooking db bookingId
      = (DeleteResult.ok,
        { seats :=
            if b.status = BookingStatus.confirmed
            then setSeatAvailability db.seats b.movie_name b.show_time
              b.seat_number true
            else db.seats,
          bookings := db.bookings.filter (fun x => decide (¬ x.id = bookingId)),
          nextId := db.nextId }) := by
  unfold deleteBooking
  rw [hfind]
  by_cases hst : b.status = BookingStatus.confirmed
  · simp [hst]
  · simp [hst]

/-- Claim C7: deleting an existing booking removes its row (the DELETE
keeps exactly the rows with a different id), sets the referenced seat's
isAvailable to true exactly when the booking's status at fetch time was
confirmed, leaves every other seat untouched (the seat UPDATE maps only
rows matching the booking's triple), and leaves the whole seat table
untouched when the booking was already cancelled. -/
theorem C7_delete_effects (db : DBState) (bookingId : Nat) (b : Booking)
    (hfind : db.bookings.find? (fun x => decide (x.id = bookingId)) = some b) :
    (deleteBooking db bookingId).1 = DeleteResult.ok
    ∧ (deleteBooking db bookingId).2.bookings
        = db.bookings.filter (fun x => decide (¬ x.id = bookingId))
    ∧ (deleteBooking db bookingId).2.seats
        = (if b.status = BookingStatus.confirmed
          then setSeatAvailability db.seats b.movie_name b.show_time
            b.seat_number true
          else db.seats)
    ∧ (b.status = BookingStatus.cancelled →
        (deleteBooking db bookingId).2.seats = db.seats) := by
  have h := deleteBooking_some db bookingId b hfind
  refine ⟨by rw [h], by rw [h], by rw [h], ?_⟩
  intro hcan
  rw [h]
  have hst : ¬ b.status = BookingStatus.confirmed := by
    rw [hcan]
    exact fun hx => BookingStatus.noConfusion hx
  simp [hst]

/-- Claim C7, witness: deleting the confirmed booking of the one-booking
ledger frees its seat. -/
theorem C7_witness :
    (deleteBooking dbU 1).1 = DeleteResult.ok
    ∧ (deleteBooking dbU 1).2.bookings
        = dbU.bookings.filter (fun x => decide (¬ x.id = 1))
    ∧ (deleteBooking dbU 1).2.seats
        = (if bookingU.status = BookingStatus.confirmed
          then setSeatAvailability dbU.seats bookingU.movie_name
            bookingU.show_time bookingU.seat_number true
          else dbU.seats)
    ∧ (bookingU.status = BookingStatus.cancelled →
        (deleteBooking dbU 1).2.seats = dbU.seats) :=
  C7_delete_effects dbU 1 bookingU (by decide)

/-! ## Claim C9 -/

/-- Claim C9, counterexample to the claim as stated: the server-side
update handler applies no emptiness validation.  A request with an empty
name against a store holding booking 1 runs the UPDATE, answers success,
and leaves the booking row rewritten with the empty name: storage is
reached and changed rather than the request being rejected. -/
theorem C9_counterexample :
    (updateBookingHandler dbU 1 "" "new@example.com" "0123456789").1
        = UpdateResult.ok
    ∧ (updateBookingHandler dbU 1 "" "new@example.com" "0123456789").2 ≠ dbU
    ∧ ((updateBookingHandler dbU 1 "" "new@example.com" "0123456789").2.bookings.map
        Booking.user_name) = [""] := by
  refine ⟨?_, ?_, ?_⟩ <;> decide

/-- Claim C9 (amended): an UpdateContactInfo submission that goes through
the client's edit form is rejected with the fill-in-all-fields validation
error, before any request or storage write, whenever the trimmed name,
email or phone is empty; the server-side handler itself performs no such
check. -/
theorem C9_client_validation (rawName rawEmail rawPhone : String)
    (h : jsTrim rawName = "" ∨ jsTrim rawEmail = "" ∨ jsTrim rawPhone = "") :
    clientValidateUpdate rawName rawEmail rawPhone
      = ClientUpdateAction.validationFailed "Please fill in all fields" := by
  unfold clientValidateUpdate
  rw [if_pos h]

/-- Claim C9, witness: an empty name is rejected by the client validation. -/
theorem C9_witness :
    clientValidateUpdate "" "user@example.com" "1234567890"
      = ClientUpdateAction.validationFailed "Please fill in all fields" :=
  C9_client_validation "" "user@example.com" "1234567890" (Or.inl (by decide))

end Cinema
